import Mathlib

/-!
Verification of the research-tool pipeline (web scraper, vector store front end,
summarization agent, coordinator).

The Python sources are shallowly embedded: Python strings become `List Char`
wrapped in `String`, HTML soups become a finite tree type `Html`, the network
and the two remote services (vector index, hosted assistant) are abstracted as
explicit outcome parameters, and side effects (HTTP requests, sleeps, remote
deletes, printing) are recorded in explicit event traces.
-/

namespace ResearchTool

/-! ### Python string primitives, modelled over lists of characters

Python `str` is a sequence of code points; we embed it as `List Char` (and wrap
in `String` at structure boundaries).  `str.strip()` strips whitespace from both
ends; `str.split("  ")` splits on the exact two-character separator, greedily
left to right, keeping empty segments; `sep.join(xs)` interleaves the separator.
-/

/-- Python `s.strip()`: drop whitespace from both ends. -/
def stripChars (s : List Char) : List Char :=
  ((s.dropWhile Char.isWhitespace).reverse.dropWhile Char.isWhitespace).reverse

/-- Python `s.split("  ")`: split on each non-overlapping occurrence of two
consecutive spaces, scanning left to right; empty segments are kept. -/
def splitOnDoubleSpace : List Char → List (List Char)
  | ' ' :: ' ' :: cs => [] :: splitOnDoubleSpace cs
  | c :: cs =>
    match splitOnDoubleSpace cs with
    | [] => [[c]]
    | r :: rs => (c :: r) :: rs
  | [] => [[]]

/-- Python `sep.join(xs)`. -/
def pyJoin (sep : String) : List String → String
  | [] => ""
  | [x] => x
  | x :: y :: xs => x ++ sep ++ pyJoin sep (y :: xs)

/-- Python slicing `s[:n]`: a hard cut after `n` code points. -/
def pySlice (s : String) (n : Nat) : String :=
  String.mk (s.data.take n)

/-! ### HTML soups

`BeautifulSoup(response.text, 'html.parser')` yields a tree of elements and
text nodes; we embed the parsed tree directly.  The soup handed to the scraper
is the document root, whose children are the parsed top-level nodes.
-/

/-- A parsed HTML tree: text nodes and elements with a tag and children. -/
inductive Html where
  | text (s : String)
  | elem (tag : String) (children : List Html)

/-- The tags removed by the scraper before text extraction. -/
def bannedTags : List String := ["script", "style"]

/-- Whether a node is an element whose tag is in `banned`. -/
def isBannedElem (banned : List String) : Html → Bool
  | .text _ => false
  | .elem tag _ => banned.contains tag

mutual
/-- `for script in soup(["script", "style"]): script.decompose()` — remove every
element with a banned tag, together with its whole subtree. -/
def removeTags (banned : List String) : Html → Html
  | .text s => .text s
  | .elem tag cs => .elem tag (removeTagsList banned cs)
def removeTagsList (banned : List String) : List Html → List Html
  | [] => []
  | c :: cs =>
    if isBannedElem banned c then removeTagsList banned cs
    else removeTags banned c :: removeTagsList banned cs
end

mutual
/-- `Bool`-valued check that some element with a banned tag occurs in the tree. -/
def hasBanned (banned : List String) : Html → Bool
  | .text _ => false
  | .elem tag cs => banned.contains tag || hasBannedList banned cs
def hasBannedList (banned : List String) : List Html → Bool
  | [] => false
  | c :: cs => hasBanned banned c || hasBannedList banned cs
end

mutual
/-- `soup.find(tag)`: the first element with the given tag, in document
(preorder) order.  `soup.title` is `soup.find("title")`. -/
def findTag (t : String) : Html → Option Html
  | .text _ => none
  | .elem tag cs => if tag = t then some (.elem tag cs) else findTagList t cs
def findTagList (t : String) : List Html → Option Html
  | [] => none
  | c :: cs =>
    match findTag t c with
    | some r => some r
    | none => findTagList t cs
end

mutual
/-- The text strings of the tree, in document order (`soup.strings`). -/
def textNodes : Html → List String
  | .text s => [s]
  | .elem _ cs => textNodesList cs
def textNodesList : List Html → List String
  | [] => []
  | c :: cs => textNodes c ++ textNodesList cs
end

/-- BeautifulSoup's `.string`: the single string of a tag, descending through
single-child tags; `None` when the tag has zero or several children. -/
def tagString : Html → Option String
  | .text s => some s
  | .elem _ [] => none
  | .elem _ [c] => tagString c
  | .elem _ (_ :: _ :: _) => none

/-- `soup.get_text(separator=' ', strip=True)`: each string stripped, empty
strings dropped, the rest joined with single spaces. -/
def getText (h : Html) : List Char :=
  List.intercalate [' ']
    ((((textNodes h).map String.data).map stripChars).filter (fun c => !c.isEmpty))

/-- The whitespace cleanup in `scrape_url`:
`lines = (line.strip() for line in text.splitlines())`,
`chunks = (phrase.strip() for line in lines for phrase in line.split("  "))`,
`text = ' '.join(chunk for chunk in chunks if chunk)`. -/
def cleanWhitespace (text : List Char) : List Char :=
  let lines := (text.splitOn '\n').map stripChars
  let chunks := (lines.map (fun line => (splitOnDoubleSpace line).map stripChars)).flatten
  List.intercalate [' '] (chunks.filter (fun c => !c.isEmpty))

/-! ### The scraper's document dictionaries

`scrape_url` returns `{'url': ..., 'title': ..., 'content': ...}` — and nothing
else: there is no `status` key.  The `title` value can be Python `None` (when a
`<title>` element exists but has no single string), hence `Option String`.
-/

/-- The dictionary returned by `WebScraper.scrape_url`. -/
structure ScrapedDoc where
  url : String
  title : Option String
  content : String
deriving DecidableEq, Repr

/-- The success branch of `scrape_url`, applied to the parsed soup. -/
def scrape_url_success (url : String) (soup : Html) : ScrapedDoc :=
  let pruned := removeTags bannedTags soup
  let title : Option String :=
    match findTag "title" pruned with
    | some t => tagString t
    | none => some url
  { url := url
    title := title
    content := String.mk ((cleanWhitespace (getText pruned)).take 10000) }

/-- The `except` branch of `scrape_url`: the sentinel error document built from
the exception message. -/
def scrape_url_failure (url : String) (err : String) : ScrapedDoc :=
  { url := url, title := some "Error", content := "Failed to scrape: " ++ err }

/-- Outcome of `requests.get` + `raise_for_status` for one URL: either a parsed
soup (2xx response) or an exception message (transport error or bad status). -/
inductive FetchOutcome where
  | success (soup : Html)
  | failure (err : String)

/-- `WebScraper.scrape_url`: the try/except wrapping of the two branches; the
catch-all `except` means the function never raises. -/
def scrape_url (fetchF : String → FetchOutcome) (url : String) : ScrapedDoc :=
  match fetchF url with
  | .success soup => scrape_url_success url soup
  | .failure e => scrape_url_failure url e

/-! ### Side-effect traces

The scraper sleeps between requests, the store and agent talk to remote
services, the coordinator prints and cleans up.  We record these effects as an
explicit list of events, in program order.
-/

/-- Observable side effects of the pipeline, in program order. -/
inductive Event where
  | fetch (url : String)
  | sleep
  | storeAdd
  | agentSummarize
  | agentCleanup
  | remoteDelete
  | printError (msg : String)
deriving DecidableEq, Repr

/-- `WebScraper.scrape_urls`: scrape each URL in input order, appending the
result, and `time.sleep(delay)` between successive requests — the
`if i < len(urls) - 1` guard means no sleep after the last URL. -/
def scrape_urls (fetchF : String → FetchOutcome) :
    List String → List ScrapedDoc × List Event
  | [] => ([], [])
  | [u] => ([scrape_url fetchF u], [.fetch u])
  | u :: v :: us =>
    let rest := scrape_urls fetchF (v :: us)
    (scrape_url fetchF u :: rest.1, .fetch u :: .sleep :: rest.2)

/-- The request/pause schedule as the spec words it: "processes URLs in input
order, inserting a pause between successive requests (not after the last)".
Stated from the spec, for comparison against the trace of `scrape_urls`. -/
def fetchAllSpecTrace : List String → List Event
  | [] => []
  | [u] => [.fetch u]
  | u :: v :: us => .fetch u :: .sleep :: fetchAllSpecTrace (v :: us)

/-! ### Coordinator and entry point

`ResearchTool.research_websites` runs scrape → store → agent with no
try/finally of its own; the store and agent stages call remote services whose
outcomes we abstract as `Except` valued functions of the stage inputs (an
`Except.error` models a raised exception propagating out of the stage).
`main` wraps the call in `try/except Exception/finally`, printing the error in
the `except` arm and calling `tool.cleanup()` — which is `agent.cleanup()` —
in the `finally` arm.
-/

/-- `ResearchTool.research_websites`: the three stages in order, with the
events they emit; a store or agent exception aborts the rest and propagates. -/
def research_websites (fetchF : String → FetchOutcome)
    (storeF : List ScrapedDoc → Except String Unit)
    (agentF : List ScrapedDoc → String → Except String String)
    (urls : List String) (query : String) :
    Except String String × List Event :=
  let scraped := scrape_urls fetchF urls
  match storeF scraped.1 with
  | .error e => (.error e, scraped.2 ++ [.storeAdd])
  | .ok _ =>
    match agentF scraped.1 query with
    | .error e => (.error e, scraped.2 ++ [.storeAdd, .agentSummarize])
    | .ok s => (.ok s, scraped.2 ++ [.storeAdd, .agentSummarize])

/-- The `try/except/finally` in `main` driving `research_websites`: on success
the summary is printed, on exception the error message is printed, and in both
cases the `finally` arm invokes `agent.cleanup()` before `main` returns. -/
def main_drive (fetchF : String → FetchOutcome)
    (storeF : List ScrapedDoc → Except String Unit)
    (agentF : List ScrapedDoc → String → Except String String)
    (urls : List String) (query : String) : List Event :=
  let run := research_websites fetchF storeF agentF urls query
  match run.1 with
  | .ok _ => run.2 ++ [.agentCleanup]
  | .error e => run.2 ++ [.printError e, .agentCleanup]

/-! ### The agent's cleanup

`ResearchAgent.cleanup` is
`if self.assistant: self.client.beta.assistants.delete(self.assistant.id)` —
note that it never assigns `self.assistant = None`, so the truthiness test
sees the same assistant object on every later call.
-/

/-- The part of the agent's state that `cleanup` reads: the `self.assistant`
reference (by its id), `none` when no assistant object is held. -/
structure AgentState where
  assistant : Option String
deriving DecidableEq, Repr

/-- `ResearchAgent.cleanup`: the resulting state and the remote calls issued. -/
def agent_cleanup (st : AgentState) : AgentState × List Event :=
  match st.assistant with
  | some _ => (st, [.remoteDelete])
  | none => (st, [])

/-! ### The agent's summarization

`generate_summary` posts one user message, starts a run, then polls
`while run.status in ['queued', 'in_progress']`.  We abstract the remote run
as its initial status plus the stream of statuses returned by successive
`retrieve` calls, and the final thread as its message list.
-/

/-- One message of the thread as `generate_summary` reads it: its role and the
list of text values of its `content` parts (`message.content[0].text.value`). -/
structure ThreadMessage where
  role : String
  contentTexts : List String

/-- The polling loop: keep retrieving while the status is `queued` or
`in_progress`; `some s` is the status that ends the loop, `none` means the
provided status stream was exhausted while still pending (the loop would keep
blocking). -/
def runPollFinal (status : String) (updates : List String) : Option String :=
  if status = "queued" ∨ status = "in_progress" then
    match updates with
    | [] => none
    | u :: us => runPollFinal u us
  else some status

/-- The code after the polling loop in `generate_summary`: on `completed`,
return the first assistant message's first content text (an empty `content`
list raises an `IndexError`, modelled as `Except.error`); in every other case
fall through to the diagnostic string. -/
def generate_summary_result (finalStatus : String) (msgs : List ThreadMessage) :
    Except String String :=
  if finalStatus = "completed" then
    match msgs.find? (fun m => m.role = "assistant") with
    | some m =>
      match m.contentTexts.head? with
      | some t => .ok t
      | none => .error "IndexError: message.content[0] out of range"
    | none => .ok ("Error: Assistant run status is " ++ finalStatus)
  else .ok ("Error: Assistant run status is " ++ finalStatus)

/-- `ResearchAgent.generate_summary`, given the remote run's status stream and
the thread's final messages; `none` models the poll loop never terminating. -/
def generate_summary (status : String) (updates : List String)
    (msgs : List ThreadMessage) : Option (Except String String) :=
  match runPollFinal status updates with
  | none => none
  | some st => some (generate_summary_result st msgs)

/-! ### The agent's combined prompt body

`generate_summary_from_documents` builds
`"\n\n".join(f"Source: {doc['title']} ({doc['url']})\n{doc['content'][:2000]}"
for doc in documents)`.
-/

/-- Python `str(x)` as the f-string applies it to the `title` value, which can
be `None`. -/
def pyStr : Option String → String
  | some s => s
  | none => "None"

/-- One per-document block of the combined prompt, as the f-string writes it. -/
def sourceBlock (d : ScrapedDoc) : String :=
  "Source: " ++ pyStr d.title ++ " (" ++ d.url ++ ")\n" ++ pySlice d.content 2000

/-- The combined prompt body of `generate_summary_from_documents`. -/
def combined_content (docs : List ScrapedDoc) : String :=
  pyJoin "\n\n" (docs.map sourceBlock)

/-- The per-document block as the spec words it: `"Source: {title} ({url})"`,
then a newline, then the content truncated to its first 2000 characters.
Stated from the spec, for comparison against `sourceBlock`. -/
def specSourceBlock (d : ScrapedDoc) : String :=
  ("Source: " ++ pyStr d.title ++ " (" ++ d.url ++ ")") ++ "\n"
    ++ pySlice d.content 2000

/-- The combined prompt as the spec words it: the blocks in input order,
consecutive blocks separated by a blank line. -/
def specCombinedContent : List ScrapedDoc → String
  | [] => ""
  | [d] => specSourceBlock d
  | d :: e :: ds => specSourceBlock d ++ "\n\n" ++ specCombinedContent (e :: ds)

/-! ### Shared lemmas -/

/-- Both branches of `scrape_url` put the input URL in the `url` field. -/
theorem scrape_url_url (fetchF : String → FetchOutcome) (u : String) :
    (scrape_url fetchF u).url = u := by
  unfold scrape_url
  cases fetchF u with
  | success soup => rfl
  | failure e => rfl

/-- `scrape_urls` returns the per-URL documents in input order and emits the
fetch/pause schedule of the spec. -/
theorem scrape_urls_eq (fetchF : String → FetchOutcome) (urls : List String) :
    scrape_urls fetchF urls = (urls.map (scrape_url fetchF), fetchAllSpecTrace urls) := by
  induction urls with
  | nil => rfl
  | cons u us ih =>
    cases us with
    | nil => rfl
    | cons v vs => simp [scrape_urls, fetchAllSpecTrace, ih]

/-- The fetch/pause schedule contains only fetch and sleep events. -/
theorem fetchAllSpecTrace_mem (urls : List String) (e : Event)
    (he : e ∈ fetchAllSpecTrace urls) : (∃ u, e = .fetch u) ∨ e = .sleep := by
  induction urls with
  | nil => simp [fetchAllSpecTrace] at he
  | cons u us ih =>
    cases us with
    | nil =>
      simp [fetchAllSpecTrace] at he
      exact .inl ⟨u, he⟩
    | cons v vs =>
      simp only [fetchAllSpecTrace, List.mem_cons] at he
      rcases he with h | h | h
      · exact .inl ⟨u, h⟩
      · exact .inr h
      · exact ih h

/-- No cleanup event occurs in the fetch/pause schedule. -/
theorem fetchAllSpecTrace_count_cleanup (urls : List String) :
    (fetchAllSpecTrace urls).count Event.agentCleanup = 0 := by
  rw [List.count_eq_zero]
  intro hmem
  rcases fetchAllSpecTrace_mem urls Event.agentCleanup hmem with ⟨u, h⟩ | h <;> cases h

/-- The sleep count of the fetch/pause schedule is one less than the number of
URLs. -/
theorem fetchAllSpecTrace_count_sleep (urls : List String) :
    (fetchAllSpecTrace urls).count Event.sleep = urls.length - 1 := by
  induction urls with
  | nil => rfl
  | cons u us ih =>
    cases us with
    | nil => rfl
    | cons v vs =>
      simp [fetchAllSpecTrace, List.count_cons, ih]

mutual
/-- After `removeTags`, no banned element remains anywhere below the root. -/
theorem hasBanned_removeTags (banned : List String) (h : Html)
    (hroot : isBannedElem banned h = false) :
    hasBanned banned (removeTags banned h) = false := by
  match h with
  | .text s => rfl
  | .elem tag cs =>
    simp only [isBannedElem] at hroot
    simp only [removeTags, hasBanned, hroot,
      hasBannedList_removeTagsList banned cs, Bool.or_self]
theorem hasBannedList_removeTagsList (banned : List String) (cs : List Html) :
    hasBannedList banned (removeTagsList banned cs) = false := by
  match cs with
  | [] => rfl
  | c :: cs' =>
    rw [removeTagsList]
    by_cases hb : isBannedElem banned c = true
    · simp only [hb, if_true]
      exact hasBannedList_removeTagsList banned cs'
    · simp only [Bool.not_eq_true] at hb
      simp only [hb, Bool.false_eq_true, if_false, hasBannedList,
        hasBanned_removeTags banned c hb,
        hasBannedList_removeTagsList banned cs', Bool.or_self]
end

/-- Every member of a Python `sep.join` occurs inside the joined string. -/
theorem pyJoin_mem (sep : String) (xs : List String) (x : String) (hx : x ∈ xs) :
    ∃ pre post : List Char, (pyJoin sep xs).data = pre ++ x.data ++ post := by
  induction xs with
  | nil => cases hx
  | cons a as ih =>
    cases as with
    | nil =>
      rcases List.mem_singleton.mp hx with rfl
      exact ⟨[], [], by simp [pyJoin]⟩
    | cons b bs =>
      rcases List.mem_cons.mp hx with rfl | hx'
      · exact ⟨[], (sep ++ pyJoin sep (b :: bs)).data, by
          simp [pyJoin, String.data_append, List.append_assoc]⟩
      · rcases ih hx' with ⟨pre, post, hpp⟩
        refine ⟨(a ++ sep).data ++ pre, post, ?_⟩
        simp [pyJoin, String.data_append, hpp, List.append_assoc]

/-! ### Claim C2 -/

/-- Claim C2: for every URL whose fetch fails with any transport error or
non-2xx status, `scrape_url` does not raise (it is total on the failure
branch) and returns a document whose `url` is the input URL, whose title is
`"Error"`, and whose content is the failure description, which contains the
word "Failed". -/
theorem scrape_url_failure_contract (fetchF : String → FetchOutcome)
    (url e : String) (h : fetchF url = .failure e) :
    (scrape_url fetchF url).url = url ∧
    (scrape_url fetchF url).title = some "Error" ∧
    (scrape_url fetchF url).content = "Failed to scrape: " ++ e ∧
    ∃ pre post : List Char,
      (scrape_url fetchF url).content.data = pre ++ "Failed".data ++ post := by
  have hdoc : scrape_url fetchF url = scrape_url_failure url e := by
    unfold scrape_url
    rw [h]
  rw [hdoc]
  have hlit : ("Failed to scrape: " : String).data
      = "Failed".data ++ " to scrape: ".data := by decide
  refine ⟨rfl, rfl, rfl, [], (" to scrape: " ++ e).data, ?_⟩
  show ("Failed to scrape: " ++ e).data = _
  rw [String.data_append, String.data_append, List.nil_append, hlit,
    List.append_assoc]

/-- Witness for C2 at a concrete failing URL. -/
theorem scrape_url_failure_contract_witness :
    (scrape_url (fun _ => .failure "Connection error") "https://example.com").url
        = "https://example.com" ∧
    (scrape_url (fun _ => .failure "Connection error") "https://example.com").title
        = some "Error" ∧
    (scrape_url (fun _ => .failure "Connection error") "https://example.com").content
        = "Failed to scrape: " ++ "Connection error" ∧
    ∃ pre post : List Char,
      (scrape_url (fun _ => .failure "Connection error") "https://example.com").content.data
        = pre ++ "Failed".data ++ post :=
  scrape_url_failure_contract (fun _ => .failure "Connection error")
    "https://example.com" "Connection error" rfl

/-! ### Claim C3 -/

/-- The Ok/Failed status values the spec ascribes to Documents. -/
inductive DocStatus where
  | ok
  | failed
deriving DecidableEq

/-- Claim C3, as stated, is false: the scraper's documents carry no status
field, and none is even derivable — no function of the returned document can
be `ok` on every successful fetch and `failed` on every failed fetch, because
a successful fetch can produce the exact failure shape.  Concretely, a 2xx
response for the URL `"Error"` whose body is the bare text
`"Failed to scrape: x"` yields the same document as a fetch of that URL
failing with message `"x"`. -/
theorem document_status_field_counterexample :
    ¬ ∃ statusOf : ScrapedDoc → DocStatus,
        (∀ url soup, statusOf (scrape_url_success url soup) = DocStatus.ok) ∧
        (∀ url err, statusOf (scrape_url_failure url err) = DocStatus.failed) := by
  rintro ⟨statusOf, hok, hfail⟩
  have hcoll : scrape_url_success "Error" (Html.text "Failed to scrape: x")
      = scrape_url_failure "Error" "x" := by decide
  have h1 := hok "Error" (Html.text "Failed to scrape: x")
  rw [hcoll, hfail "Error" "x"] at h1
  exact DocStatus.noConfusion h1

/-- Claim C3 amended: documents carry only `url`, `title`, and `content` — no
status field.  Fetch failure is encoded in-band: the failure document has
title `"Error"` and content beginning `"Failed to scrape: "`, and a successful
fetch can produce that very shape, so the encoding is not a status. -/
theorem document_status_amended :
    (∀ url err : String, (scrape_url_failure url err).title = some "Error" ∧
        ∃ rest : List Char,
          (scrape_url_failure url err).content.data
            = "Failed to scrape: ".data ++ rest) ∧
    (∃ url err : String, ∃ soup : Html,
        scrape_url_success url soup = scrape_url_failure url err) := by
  constructor
  · intro url err
    exact ⟨rfl, err.data, String.data_append _ _⟩
  · exact ⟨"Error", "x", Html.text "Failed to scrape: x", by decide⟩

/-! ### Claim C4 -/

/-- Claim C4: for every successful fetch, the content is the cleaned page text
hard-cut after 10000 characters (so its length is at most 10000), the tree the
content and title are read from contains no script or style element (so their
text cannot appear in the content), and the title is the page's declared title
or, when no title element is present, the URL itself.  The hypothesis says the
document root handed to the scraper is not itself a script/style element. -/
theorem scrape_success_contract (url : String) (soup : Html)
    (hroot : isBannedElem bannedTags soup = false) :
    (scrape_url_success url soup).content.data
        = (cleanWhitespace (getText (removeTags bannedTags soup))).take 10000 ∧
    (scrape_url_success url soup).content.length ≤ 10000 ∧
    hasBanned bannedTags (removeTags bannedTags soup) = false ∧
    (findTag "title" (removeTags bannedTags soup) = none →
        (scrape_url_success url soup).title = some url) ∧
    (∀ t s, findTag "title" (removeTags bannedTags soup) = some t →
        tagString t = some s → (scrape_url_success url soup).title = some s) := by
  refine ⟨rfl, ?_, hasBanned_removeTags bannedTags soup hroot, ?_, ?_⟩
  · show ((cleanWhitespace (getText (removeTags bannedTags soup))).take 10000).length
        ≤ 10000
    rw [List.length_take]
    exact Nat.min_le_left _ _
  · intro h
    simp [scrape_url_success, h]
  · intro t s ht hs
    simp [scrape_url_success, ht, hs]

/-- A concrete test page: head with a title and a script, body with text. -/
def wsoupTitled : Html :=
  .elem "[document]" [.elem "html" [
    .elem "head" [.elem "title" [.text "Test Page"],
                  .elem "script" [.text "var x = 1;"]],
    .elem "body" [.elem "p" [.text "Test content"]]]]

/-- A concrete page without any title element. -/
def wsoupNoTitle : Html :=
  .elem "[document]" [.elem "body" [.text "plain text"]]

/-- Witness for C4 on the concrete pages: the script is stripped, the declared
title is used when present, and the URL is used when no title exists. -/
theorem scrape_success_contract_witness :
    isBannedElem bannedTags wsoupTitled = false ∧
    (scrape_url_success "https://example.com" wsoupTitled).content.length ≤ 10000 ∧
    hasBanned bannedTags (removeTags bannedTags wsoupTitled) = false ∧
    (scrape_url_success "https://example.com" wsoupTitled).title = some "Test Page" ∧
    (scrape_url_success "https://example.com" wsoupTitled).content
        = "Test Page Test content" ∧
    (scrape_url_success "https://u" wsoupNoTitle).title = some "https://u" :=
  ⟨rfl,
   (scrape_success_contract "https://example.com" wsoupTitled rfl).2.1,
   (scrape_success_contract "https://example.com" wsoupTitled rfl).2.2.1,
   (scrape_success_contract "https://example.com" wsoupTitled rfl).2.2.2.2
     (Html.elem "title" [Html.text "Test Page"]) "Test Page" rfl rfl,
   by decide,
   (scrape_success_contract "https://u" wsoupNoTitle rfl).2.2.2.1 rfl⟩

/-! ### Claim C5 -/

/-- Claim C5: `scrape_urls` returns exactly one document per input URL, in
input order, each with `url` equal to the corresponding input URL (so repeated
URLs are scraped repeatedly — no deduplication), and its side-effect trace is
exactly fetch, pause, fetch, pause, …, fetch: a pause between successive
requests and none after the last, `length urls - 1` sleeps in total. -/
theorem scrape_urls_contract (fetchF : String → FetchOutcome) (urls : List String) :
    (scrape_urls fetchF urls).1 = urls.map (scrape_url fetchF) ∧
    ((scrape_urls fetchF urls).1).map ScrapedDoc.url = urls ∧
    (scrape_urls fetchF urls).1.length = urls.length ∧
    (scrape_urls fetchF urls).2 = fetchAllSpecTrace urls ∧
    (scrape_urls fetchF urls).2.count Event.sleep = urls.length - 1 := by
  have h := scrape_urls_eq fetchF urls
  refine ⟨by rw [h], ?_, ?_, by rw [h], ?_⟩
  · rw [h]
    show (urls.map (scrape_url fetchF)).map ScrapedDoc.url = urls
    rw [List.map_map,
      show ScrapedDoc.url ∘ scrape_url fetchF = id from
        funext fun u => scrape_url_url fetchF u,
      List.map_id]
  · rw [h]
    exact List.length_map urls _
  · rw [h]
    exact fetchAllSpecTrace_count_sleep urls

/-! ### Claim C1 -/

/-- The last element of a list extended by two elements. -/
theorem getLast?_append_pair {α : Type} (l : List α) (a b : α) :
    (l ++ [a, b]).getLast? = some b := by
  rw [show l ++ [a, b] = (l ++ [a]) ++ [b] from by simp]
  exact List.getLast?_concat _

/-- Claim C1: for every URL list and query, the pipeline as driven from the
entry point — `research_websites` inside `main`'s `try/except/finally` —
invokes `agent.cleanup()` exactly once on every exit path (all stages succeed,
the agent stage raises, or the store stage raises first; the `finally` arm
runs it), and the cleanup is the last event before `main` returns. -/
theorem main_cleanup_exactly_once (fetchF : String → FetchOutcome)
    (storeF : List ScrapedDoc → Except String Unit)
    (agentF : List ScrapedDoc → String → Except String String)
    (urls : List String) (query : String) :
    (main_drive fetchF storeF agentF urls query).count Event.agentCleanup = 1 ∧
    (main_drive fetchF storeF agentF urls query).getLast? = some Event.agentCleanup := by
  simp only [main_drive, research_websites, scrape_urls_eq]
  cases hs : storeF (urls.map (scrape_url fetchF)) with
  | error e =>
    refine ⟨?_, getLast?_append_pair _ _ _⟩
    simp [List.count_append, List.count_cons, fetchAllSpecTrace_count_cleanup]
  | ok u =>
    cases ha : agentF (urls.map (scrape_url fetchF)) query with
    | error e =>
      refine ⟨?_, getLast?_append_pair _ _ _⟩
      simp [List.count_append, List.count_cons, fetchAllSpecTrace_count_cleanup]
    | ok s =>
      refine ⟨?_, List.getLast?_concat _⟩
      simp [List.count_append, List.count_cons, fetchAllSpecTrace_count_cleanup]

/-! ### Claim C7 -/

/-- The f-string block equals the block as the spec words it: the difference
is only the association of the string concatenations. -/
theorem sourceBlock_eq_spec (d : ScrapedDoc) : sourceBlock d = specSourceBlock d := by
  apply String.ext
  have h1 : (")\n" : String).data = [')', '\n'] := rfl
  have h2 : (")" : String).data = [')'] := rfl
  have h3 : ("\n" : String).data = ['\n'] := rfl
  simp [sourceBlock, specSourceBlock, String.data_append, h1, h2, h3]

/-- The joined prompt equals the blank-line-separated block sequence of the
spec. -/
theorem combined_content_eq_spec (docs : List ScrapedDoc) :
    combined_content docs = specCombinedContent docs := by
  induction docs with
  | nil => rfl
  | cons d ds ih =>
    cases ds with
    | nil =>
      show pyJoin "\n\n" [sourceBlock d] = specSourceBlock d
      simpa [pyJoin] using sourceBlock_eq_spec d
    | cons e es =>
      show pyJoin "\n\n" (sourceBlock d :: sourceBlock e :: es.map sourceBlock)
          = specSourceBlock d ++ "\n\n" ++ specCombinedContent (e :: es)
      rw [pyJoin, sourceBlock_eq_spec d, ← ih]
      rfl

/-- Claim C7: the combined prompt body is the per-document
`"Source: {title} ({url})"` header, a newline, and the content hard-cut to its
first 2000 characters, blocks in input order separated by a blank line;
every document's 2000-character cut appears in the prompt, and a document
whose content has at most 2000 characters is embedded in full. -/
theorem summarize_documents_prompt (docs : List ScrapedDoc) :
    combined_content docs = specCombinedContent docs ∧
    (∀ d ∈ docs, ∃ pre post : List Char,
        (combined_content docs).data = pre ++ d.content.data.take 2000 ++ post) ∧
    (∀ d ∈ docs, d.content.data.length ≤ 2000 →
        ∃ pre post : List Char,
          (combined_content docs).data = pre ++ d.content.data ++ post) := by
  have hmem : ∀ d ∈ docs, ∃ pre post : List Char,
      (combined_content docs).data = pre ++ d.content.data.take 2000 ++ post := by
    intro d hd
    obtain ⟨pre, post, hpp⟩ :=
      pyJoin_mem "\n\n" (docs.map sourceBlock) (sourceBlock d)
        (List.mem_map_of_mem _ hd)
    refine ⟨pre ++ ("Source: " ++ pyStr d.title ++ " (" ++ d.url ++ ")\n").data,
      post, ?_⟩
    have hb : (sourceBlock d).data
        = ("Source: " ++ pyStr d.title ++ " (" ++ d.url ++ ")\n").data
            ++ d.content.data.take 2000 := by
      simp [sourceBlock, pySlice, String.data_append]
    show (pyJoin "\n\n" (docs.map sourceBlock)).data = _
    rw [hpp, hb]
    simp [List.append_assoc]
  refine ⟨combined_content_eq_spec docs, hmem, ?_⟩
  intro d hd hlen
  obtain ⟨pre, post, h⟩ := hmem d hd
  rw [List.take_of_length_le hlen] at h
  exact ⟨pre, post, h⟩

/-- A document whose content is 5000 characters long. -/
def wdocLong : ScrapedDoc :=
  ⟨"https://long", some "Long", String.mk (List.replicate 5000 'x')⟩

/-- A document with a short content, well under the 2000-character cut. -/
def wdocShort : ScrapedDoc :=
  ⟨"https://short", some "Short", "short content"⟩

/-- Witness for C7 on a 5000-character and a 13-character document: the long
one is embedded cut to 2000 characters, the short one in full. -/
theorem summarize_documents_prompt_witness :
    combined_content [wdocLong, wdocShort]
        = specCombinedContent [wdocLong, wdocShort] ∧
    (∃ pre post : List Char,
        (combined_content [wdocLong, wdocShort]).data
          = pre ++ wdocLong.content.data.take 2000 ++ post) ∧
    (∃ pre post : List Char,
        (combined_content [wdocLong, wdocShort]).data
          = pre ++ wdocShort.content.data ++ post) :=
  ⟨(summarize_documents_prompt [wdocLong, wdocShort]).1,
   (summarize_documents_prompt [wdocLong, wdocShort]).2.1 wdocLong (by simp),
   (summarize_documents_prompt [wdocLong, wdocShort]).2.2 wdocShort (by simp)
     (by simp [wdocShort])⟩

/-! ### Claim C8 -/

/-- Claim C8, as stated, is false: after a successful cleanup the
`self.assistant` reference is still set (the code never assigns `None` to it),
so a second `cleanup()` call is not a no-op — it issues the remote delete
again.  Concrete input: an agent holding assistant `"asst_1"`, cleaned up
twice. -/
theorem cleanup_not_idempotent_counterexample :
    (agent_cleanup (agent_cleanup (AgentState.mk (some "asst_1"))).1).2
        = [Event.remoteDelete] ∧
    (agent_cleanup (agent_cleanup (AgentState.mk (some "asst_1"))).1).2 ≠ [] := by
  decide

/-- Claim C8 amended: `cleanup` is a no-op performing no remote delete when no
persona reference is held; but a successful cleanup leaves the persona
reference in place, so calling `cleanup` again after a successful cleanup
issues the remote delete a second time (cleanup is not idempotent). -/
theorem cleanup_amended (i : String) :
    agent_cleanup ⟨none⟩ = (⟨none⟩, []) ∧
    agent_cleanup ⟨some i⟩ = (⟨some i⟩, [Event.remoteDelete]) :=
  ⟨rfl, rfl⟩

/-! ### Claim C9 -/

/-- The status ending the polling loop is terminal: neither queued nor
in-progress. -/
theorem runPollFinal_not_pending (status : String) (updates : List String)
    (st : String) (h : runPollFinal status updates = some st) :
    st ≠ "queued" ∧ st ≠ "in_progress" := by
  induction updates generalizing status with
  | nil =>
    unfold runPollFinal at h
    by_cases hp : status = "queued" ∨ status = "in_progress"
    · rw [if_pos hp] at h
      cases h
    · rw [if_neg hp] at h
      cases h
      exact not_or.mp hp
  | cons u us ih =>
    unfold runPollFinal at h
    by_cases hp : status = "queued" ∨ status = "in_progress"
    · rw [if_pos hp] at h
      exact ih u h
    · rw [if_neg hp] at h
      cases h
      exact not_or.mp hp

/-- Claim C9: whenever the polling loop ends on a terminal status other than
`"completed"`, `generate_summary` does not raise: it returns — with the same
type as a real summary — the diagnostic string
`"Error: Assistant run status is " ++ status`, which embeds the terminal
status. -/
theorem summarize_nonterminal_diagnostic (status : String) (updates : List String)
    (msgs : List ThreadMessage) (st : String)
    (hpoll : runPollFinal status updates = some st)
    (hne : st ≠ "completed") :
    generate_summary status updates msgs
        = some (Except.ok ("Error: Assistant run status is " ++ st)) ∧
    st ≠ "queued" ∧ st ≠ "in_progress" ∧
    (∃ pre post : List Char,
        ("Error: Assistant run status is " ++ st).data
          = pre ++ st.data ++ post) := by
  refine ⟨?_, (runPollFinal_not_pending status updates st hpoll).1,
    (runPollFinal_not_pending status updates st hpoll).2,
    "Error: Assistant run status is ".data, [], ?_⟩
  · simp only [generate_summary, hpoll]
    simp only [generate_summary_result, if_neg hne]
  · rw [String.data_append, List.append_nil]

/-- Witness for C9: a run that ends with terminal status `"failed"`. -/
theorem summarize_nonterminal_diagnostic_witness :
    generate_summary "failed" [] []
        = some (Except.ok ("Error: Assistant run status is " ++ "failed")) ∧
    ("failed" : String) ≠ "queued" ∧ ("failed" : String) ≠ "in_progress" ∧
    (∃ pre post : List Char,
        ("Error: Assistant run status is " ++ "failed").data
          = pre ++ ("failed" : String).data ++ post) :=
  summarize_nonterminal_diagnostic "failed" [] [] "failed" (by decide) (by decide)

/-! ### Claim C10 -/

/-- Claim C10: when the run reaches `"completed"` but the thread holds no
assistant-authored message, `generate_summary` neither raises nor returns
summary content: it falls through to the diagnostic string
`"Error: Assistant run status is completed"` — the error-string branch is
reachable even on a successfully completed job. -/
theorem summarize_completed_without_assistant (status : String)
    (updates : List String) (msgs : List ThreadMessage)
    (hpoll : runPollFinal status updates = some "completed")
    (hnoa : ∀ m ∈ msgs, m.role ≠ "assistant") :
    generate_summary status updates msgs
        = some (Except.ok "Error: Assistant run status is completed") := by
  have hfind : msgs.find? (fun m => m.role = "assistant") = none := by
    rw [List.find?_eq_none]
    intro m hm
    simpa using hnoa m hm
  simp only [generate_summary, hpoll]
  simp only [generate_summary_result, hfind, if_pos]
  rfl

/-- Witness for C10: a queued run that completes after two polls, with a
thread containing only the user message. -/
theorem summarize_completed_without_assistant_witness :
    generate_summary "queued" ["in_progress", "completed"]
        [ThreadMessage.mk "user" ["hello"]]
        = some (Except.ok "Error: Assistant run status is completed") :=
  summarize_completed_without_assistant "queued" ["in_progress", "completed"]
    [ThreadMessage.mk "user" ["hello"]] (by decide) (by decide)

end ResearchTool
